import Mathlib

/-!
Verification of the credential and token lifecycle subsystem of NotesVerb
(`services/auth-service`, class `AuthService`).

The embedding models:
  - bcrypt `hash` / `compare` as an injective pairing of plaintext and cost
    factor (no collisions);
  - `jwt.sign` / `jwt.verify` (library jsonwebtoken) as an injective pairing
    of the claim set (userId, email, iat, exp) with the signing secret;
    verification succeeds exactly when the secret matches and the clock is
    strictly before `exp` (jsonwebtoken treats `clock >= exp` as expired);
  - the Prisma store (`prisma.user`, `prisma.refreshToken`) as lists of
    records plus fresh-id counters; `create` on the refresh-token table
    enforces the `@unique` constraint on the token column (Prisma raises
    P2002 on violation); every mutation is also appended to an event log so
    that the order of store operations inside one service call is visible;
  - thrown `ServiceError`s vs. other thrown errors (Prisma errors, jwt
    errors) as the two constructors of `AuthError`; the `try/catch` blocks
    of `refreshToken` and `validateToken` re-throw `ServiceError`s and wrap
    anything else as a 401.

Time is an explicit `Nat` parameter (seconds), passed to each operation.
-/

/-- Decoded JWT claim set: userId, email, issued-at, expiry
(shared/types `JWTPayload`). -/
structure JWTPayload where
  userId : String
  email : String
  iat : Nat
  exp : Nat
deriving DecidableEq, Repr

/-- A signed token string, modeled as the claims together with the signing
secret: two signatures agree exactly when payload and secret agree. -/
structure Token where
  payload : JWTPayload
  secret : String
deriving DecidableEq, Repr

/-- jwt.sign of payload `\x7b userId, email \x7d` with a secret and an
`expiresIn` ttl (seconds): the library stamps `iat = now` and
`exp = now + ttl`. -/
def jwt.sign (userId email : String) (secret : String) (ttl now : Nat) : Token :=
  ⟨⟨userId, email, now, now + ttl⟩, secret⟩

/-- jwt.verify: yields the decoded payload when the secret matches and the
token is not expired (jsonwebtoken raises TokenExpiredError when
`now ≥ exp`), `none` when the library would throw. -/
def jwt.verify (t : Token) (secret : String) (now : Nat) : Option JWTPayload :=
  if t.secret = secret ∧ now < t.payload.exp then some t.payload else none

/-- A bcrypt hash, modeled as the hashed plaintext with the cost factor. -/
structure BcryptHash where
  plaintext : String
  rounds : Nat
deriving DecidableEq, Repr

/-- bcrypt.hash. -/
def bcrypt.hash (password : String) (rounds : Nat) : BcryptHash :=
  ⟨password, rounds⟩

/-- bcrypt.compare. -/
def bcrypt.compare (password : String) (h : BcryptHash) : Bool :=
  h.plaintext = password

/-- A row of the `User` table (Prisma model User: id, email @unique,
password, createdAt, updatedAt). -/
structure UserRec where
  id : String
  email : String
  password : BcryptHash
  createdAt : Nat
  updatedAt : Nat
deriving DecidableEq, Repr

/-- A row of the `RefreshToken` table (id, userId, token @unique,
expiresAt). -/
structure RefreshTokenRec where
  id : String
  userId : String
  token : Token
  expiresAt : Nat
deriving DecidableEq, Repr

/-- One store mutation, recorded in the order the service issues them. -/
inductive StoreEvent where
  | createUser (u : UserRec)
  | createRefresh (r : RefreshTokenRec)
  | deleteRefreshById (id : String)
  | deleteManyByToken (t : Token)
deriving DecidableEq, Repr

/-- The Prisma-backed store: both tables, fresh-id sources for the
generated primary keys, and the event log. -/
structure DB where
  users : List UserRec
  refreshTokens : List RefreshTokenRec
  nextUserId : Nat
  nextRefreshId : Nat
  log : List StoreEvent
deriving DecidableEq, Repr

/-- The empty store. -/
def DB.empty : DB := ⟨[], [], 0, 0, []⟩

/-- Generated primary key for the n-th created user row. -/
def mkUserId (n : Nat) : String := "u" ++ toString n

/-- Generated primary key for the n-th created refresh-token row. -/
def mkRefreshId (n : Nat) : String := "r" ++ toString n

/-- shared/types `ServiceError`, reduced to the observable message and
HTTP status code. -/
structure ServiceError where
  message : String
  statusCode : Nat
deriving DecidableEq, Repr

/-- A thrown value: either a `ServiceError` built via
`createServiceError` / `createServiceResponse`, or some other throwable
(Prisma constraint violations, jsonwebtoken errors, TypeErrors). The
`catch` blocks distinguish exactly these two cases. -/
inductive AuthError where
  | service (e : ServiceError)
  | internal (msg : String)
deriving DecidableEq, Repr

/-- Configuration read in the `AuthService` constructor; ttls in seconds
(JWT_EXPIRES_IN default 15m, JWT_REFRESH_EXPIRES_IN default 7d,
BCRYPT_ROUNDS default 10). -/
structure AuthConfig where
  jwtSecret : String
  jwtRefreshSecret : String
  jwtExpiresIn : Nat
  jwtRefreshExpiresIn : Nat
  bcryptRounds : Nat
deriving DecidableEq, Repr

/-- The constant window, in seconds, of
`expiresAt.setDate(expiresAt.getDate() + 7)`: 7 days from now. -/
def sevenDays : Nat := 7 * 24 * 60 * 60

/-- `AuthTokens` (shared/types): the returned pair. -/
structure AuthTokens where
  accessToken : Token
  refreshToken : Token
deriving DecidableEq, Repr

namespace AuthService

/-- `AuthService.generateTokens`: signs the access token with `jwtSecret`
and `jwtExpiresIn`, the refresh token with `jwtRefreshSecret` and
`jwtRefreshExpiresIn`, then persists the refresh token with
`expiresAt = now + 7 days`. The `prisma.refreshToken.create` enforces the
unique constraint on the token column and throws a (non-ServiceError)
Prisma error on violation. -/
def generateTokens (cfg : AuthConfig) (now : Nat) (userId email : String)
    (db : DB) : Except AuthError (AuthTokens × DB) :=
  let accessToken := jwt.sign userId email cfg.jwtSecret cfg.jwtExpiresIn now
  let refreshToken := jwt.sign userId email cfg.jwtRefreshSecret cfg.jwtRefreshExpiresIn now
  let expiresAt := now + sevenDays
  if db.refreshTokens.any (fun r => r.token = refreshToken) then
    .error (.internal "P2002 unique constraint failed on RefreshToken.token")
  else
    let newRec : RefreshTokenRec :=
      ⟨mkRefreshId db.nextRefreshId, userId, refreshToken, expiresAt⟩
    .ok (⟨accessToken, refreshToken⟩,
      { db with
        refreshTokens := db.refreshTokens ++ [newRec],
        nextRefreshId := db.nextRefreshId + 1,
        log := db.log ++ [.createRefresh newRec] })

/-- `AuthService.register`: 409 Conflict when the email exists, otherwise
hash the password, create the user, and issue tokens. -/
def register (cfg : AuthConfig) (now : Nat) (email password : String)
    (db : DB) : Except AuthError (AuthTokens × DB) :=
  match db.users.find? (fun u => u.email = email) with
  | some _ => .error (.service ⟨"User already exists", 409⟩)
  | none =>
    let hashPassword := bcrypt.hash password cfg.bcryptRounds
    let user : UserRec := ⟨mkUserId db.nextUserId, email, hashPassword, now, now⟩
    let db1 : DB :=
      { db with
        users := db.users ++ [user],
        nextUserId := db.nextUserId + 1,
        log := db.log ++ [.createUser user] }
    generateTokens cfg now user.id user.email db1

/-- `AuthService.login`: 401 with the single message
"Invalid email or password" both for an unknown email and for a failed
bcrypt comparison; otherwise issue tokens for the found user. -/
def login (cfg : AuthConfig) (now : Nat) (email password : String)
    (db : DB) : Except AuthError (AuthTokens × DB) :=
  match db.users.find? (fun u => u.email = email) with
  | none => .error (.service ⟨"Invalid email or password", 401⟩)
  | some user =>
    if bcrypt.compare password user.password then
      generateTokens cfg now user.id user.email db
    else
      .error (.service ⟨"Invalid email or password", 401⟩)

/-- The `catch` block of `refreshToken` / `validateToken`: a thrown
`ServiceError` is re-thrown unchanged; anything else is wrapped as a 401
with the given message. -/
def wrapCatch (msg : String) (r : Except AuthError α) : Except AuthError α :=
  match r with
  | .error (.internal _) => .error (.service ⟨msg, 401⟩)
  | other => other

/-- The `try` body of `AuthService.refreshToken`: verify the signature
against the refresh secret (jwt throws on failure, modeled `.internal`),
fetch the stored record with its user row, reject a missing or expired
record with 401, mint new tokens via `generateTokens` (persisting the new
record), and only then delete the consumed record by id. -/
def refreshTokenTry (cfg : AuthConfig) (now : Nat) (refreshToken : Token)
    (db : DB) : Except AuthError (AuthTokens × DB) :=
  match jwt.verify refreshToken cfg.jwtRefreshSecret now with
  | none => .error (.internal "JsonWebTokenError")
  | some _decoded =>
    match db.refreshTokens.find? (fun r => r.token = refreshToken) with
    | none => .error (.service ⟨"Invalid refresh token", 401⟩)
    | some storedToken =>
      if storedToken.expiresAt < now then
        .error (.service ⟨"Invalid refresh token", 401⟩)
      else
        match db.users.find? (fun u => u.id = storedToken.userId) with
        | none => .error (.internal "TypeError: user relation missing")
        | some user =>
          match generateTokens cfg now user.id user.email db with
          | .error e => .error e
          | .ok (tokens, db1) =>
            .ok (tokens,
              { db1 with
                refreshTokens := db1.refreshTokens.filter (fun r => r.id ≠ storedToken.id),
                log := db1.log ++ [.deleteRefreshById storedToken.id] })

/-- `AuthService.refreshToken`: the try body under the catch that wraps
non-ServiceError throwables as 401 "Invalid refresh token". -/
def refreshToken (cfg : AuthConfig) (now : Nat) (tok : Token)
    (db : DB) : Except AuthError (AuthTokens × DB) :=
  wrapCatch "Invalid refresh token" (refreshTokenTry cfg now tok db)

/-- `AuthService.logout`: `prisma.refreshToken.deleteMany` on the token
column; never throws. -/
def logout (tok : Token) (db : DB) : Except AuthError (Unit × DB) :=
  .ok ((),
    { db with
      refreshTokens := db.refreshTokens.filter (fun r => r.token ≠ tok),
      log := db.log ++ [.deleteManyByToken tok] })

/-- The `try` body of `AuthService.validateToken`: verify against the
access secret (jwt throws on failure), then 404 when the embedded user id
no longer resolves, else return the decoded payload. -/
def validateTokenTry (cfg : AuthConfig) (now : Nat) (token : Token)
    (db : DB) : Except AuthError JWTPayload :=
  match jwt.verify token cfg.jwtSecret now with
  | none => .error (.internal "JsonWebTokenError")
  | some decoded =>
    match db.users.find? (fun u => u.id = decoded.userId) with
    | none => .error (.service ⟨"User not found", 404⟩)
    | some _ => .ok decoded

/-- `AuthService.validateToken`: the try body under the catch that wraps
non-ServiceError throwables as 401 "Invalid token". -/
def validateToken (cfg : AuthConfig) (now : Nat) (token : Token)
    (db : DB) : Except AuthError JWTPayload :=
  wrapCatch "Invalid token" (validateTokenTry cfg now token db)

/-- The projection selected by `getUserById` (`select` without the
password column): shared/types `User`. -/
structure PublicUser where
  id : String
  email : String
  createdAt : Nat
  updatedAt : Nat
deriving DecidableEq, Repr

/-- `AuthService.getUserById`: `prisma.user.findUnique` with a select that
omits the password; throws 404 "User not found" when no row matches. -/
def getUserById (userId : String) (db : DB) : Except AuthError PublicUser :=
  match db.users.find? (fun u => u.id = userId) with
  | none => .error (.service ⟨"User not found", 404⟩)
  | some u => .ok ⟨u.id, u.email, u.createdAt, u.updatedAt⟩

end AuthService

/-- Recognizer for delete-refresh events. -/
def StoreEvent.isDeleteRefresh : StoreEvent → Bool
  | .deleteRefreshById _ => true
  | _ => false

/-- Recognizer for create-refresh events. -/
def StoreEvent.isCreateRefresh : StoreEvent → Bool
  | .createRefresh _ => true
  | _ => false

/-- Some delete of a refresh record occurs strictly before some creation
of a refresh record in the event list (the delete-then-create ordering the
spec prescribes for rotation). -/
def deleteBeforeCreate (l : List StoreEvent) : Prop :=
  ∃ i : Fin l.length, ∃ j : Fin l.length,
    i.val < j.val ∧ (l.get i).isDeleteRefresh ∧ (l.get j).isCreateRefresh

instance (l : List StoreEvent) : Decidable (deleteBeforeCreate l) := by
  unfold deleteBeforeCreate
  infer_instance

/-- The event log of a successful call, empty on failure. -/
def resultLog (r : Except AuthError (AuthTokens × DB)) : List StoreEvent :=
  match r with
  | .ok (_, db) => db.log
  | .error _ => []

theorem wrapCatch_ok_iff {α : Type} {msg : String} {r : Except AuthError α} {v : α} :
    AuthService.wrapCatch msg r = .ok v ↔ r = .ok v := by
  cases r with
  | ok a => simp [AuthService.wrapCatch]
  | error e => cases e <;> simp [AuthService.wrapCatch]

/-- Characterization of a successful `generateTokens` call: the unique
check on the new refresh token passed, the returned pair is the two fresh
signatures, and the store gained exactly the new refresh record. -/
theorem generateTokens_ok {cfg : AuthConfig} {now : Nat} {uid em : String} {db : DB}
    {tk : AuthTokens} {db' : DB}
    (h : AuthService.generateTokens cfg now uid em db = .ok (tk, db')) :
    db.refreshTokens.any
      (fun r => r.token = jwt.sign uid em cfg.jwtRefreshSecret cfg.jwtRefreshExpiresIn now) = false ∧
    tk = ⟨jwt.sign uid em cfg.jwtSecret cfg.jwtExpiresIn now,
          jwt.sign uid em cfg.jwtRefreshSecret cfg.jwtRefreshExpiresIn now⟩ ∧
    db' = { db with
      refreshTokens := db.refreshTokens ++
        [⟨mkRefreshId db.nextRefreshId, uid,
          jwt.sign uid em cfg.jwtRefreshSecret cfg.jwtRefreshExpiresIn now, now + sevenDays⟩],
      nextRefreshId := db.nextRefreshId + 1,
      log := db.log ++ [.createRefresh ⟨mkRefreshId db.nextRefreshId, uid,
          jwt.sign uid em cfg.jwtRefreshSecret cfg.jwtRefreshExpiresIn now, now + sevenDays⟩] } := by
  unfold AuthService.generateTokens at h
  by_cases hc : db.refreshTokens.any
      (fun r => r.token = jwt.sign uid em cfg.jwtRefreshSecret cfg.jwtRefreshExpiresIn now) = true
  · simp [hc] at h
  · simp only [Bool.not_eq_true] at hc
    simp only [hc, Bool.false_eq_true, if_false, Except.ok.injEq, Prod.mk.injEq] at h
    exact ⟨hc, h.1.symm, h.2.symm⟩

/-- Characterization of a successful `refreshTokenTry`: a stored,
unexpired record matching the presented token was found together with its
user row, the new pair was minted from that user row and persisted, and
only afterwards was the consumed record deleted by id. -/
theorem refreshTokenTry_ok {cfg : AuthConfig} {now : Nat} {tok : Token} {db : DB}
    {tk : AuthTokens} {db' : DB}
    (h : AuthService.refreshTokenTry cfg now tok db = .ok (tk, db')) :
    ∃ stored user,
      db.refreshTokens.find? (fun r => r.token = tok) = some stored ∧
      ¬ stored.expiresAt < now ∧
      db.users.find? (fun u => u.id = stored.userId) = some user ∧
      db.refreshTokens.any
        (fun r => r.token = jwt.sign user.id user.email cfg.jwtRefreshSecret cfg.jwtRefreshExpiresIn now) = false ∧
      tk = ⟨jwt.sign user.id user.email cfg.jwtSecret cfg.jwtExpiresIn now,
            jwt.sign user.id user.email cfg.jwtRefreshSecret cfg.jwtRefreshExpiresIn now⟩ ∧
      db' = { db with
        refreshTokens := (db.refreshTokens ++
          [(⟨mkRefreshId db.nextRefreshId, user.id,
            jwt.sign user.id user.email cfg.jwtRefreshSecret cfg.jwtRefreshExpiresIn now,
            now + sevenDays⟩ : RefreshTokenRec)]).filter (fun r => r.id ≠ stored.id),
        nextRefreshId := db.nextRefreshId + 1,
        log := db.log ++
          [.createRefresh ⟨mkRefreshId db.nextRefreshId, user.id,
            jwt.sign user.id user.email cfg.jwtRefreshSecret cfg.jwtRefreshExpiresIn now,
            now + sevenDays⟩,
           .deleteRefreshById stored.id] } := by
  unfold AuthService.refreshTokenTry at h
  split at h
  · exact absurd h (by simp)
  · split at h
    · exact absurd h (by simp)
    · rename_i stored hfind
      split at h
      · exact absurd h (by simp)
      · rename_i hexp
        split at h
        · exact absurd h (by simp)
        · rename_i user huser
          split at h
          · exact absurd h (by simp)
          · rename_i tokens db1 hgen
            obtain ⟨hany, htk, hdb1⟩ := generateTokens_ok hgen
            simp only [Except.ok.injEq, Prod.mk.injEq] at h
            obtain ⟨h1, h2⟩ := h
            subst h2
            subst h1
            subst hdb1
            subst htk
            refine ⟨stored, user, hfind, hexp, huser, hany, rfl, ?_⟩
            simp [List.append_assoc]

/-- Characterization of a successful `register`: the email was free, the
user row was created (bcrypt hash of the password, both timestamps now),
and a pair was minted and persisted for the fresh user id. -/
theorem register_ok {cfg : AuthConfig} {now : Nat} {email pw : String} {db : DB}
    {tk : AuthTokens} {db' : DB}
    (h : AuthService.register cfg now email pw db = .ok (tk, db')) :
    db.users.find? (fun u => u.email = email) = none ∧
    db.refreshTokens.any
      (fun r => r.token = jwt.sign (mkUserId db.nextUserId) email cfg.jwtRefreshSecret cfg.jwtRefreshExpiresIn now) = false ∧
    tk = ⟨jwt.sign (mkUserId db.nextUserId) email cfg.jwtSecret cfg.jwtExpiresIn now,
          jwt.sign (mkUserId db.nextUserId) email cfg.jwtRefreshSecret cfg.jwtRefreshExpiresIn now⟩ ∧
    db' = { db with
      users := db.users ++ [⟨mkUserId db.nextUserId, email, ⟨pw, cfg.bcryptRounds⟩, now, now⟩],
      refreshTokens := db.refreshTokens ++
        [⟨mkRefreshId db.nextRefreshId, mkUserId db.nextUserId,
          jwt.sign (mkUserId db.nextUserId) email cfg.jwtRefreshSecret cfg.jwtRefreshExpiresIn now,
          now + sevenDays⟩],
      nextUserId := db.nextUserId + 1,
      nextRefreshId := db.nextRefreshId + 1,
      log := db.log ++
        [.createUser ⟨mkUserId db.nextUserId, email, ⟨pw, cfg.bcryptRounds⟩, now, now⟩,
         .createRefresh ⟨mkRefreshId db.nextRefreshId, mkUserId db.nextUserId,
           jwt.sign (mkUserId db.nextUserId) email cfg.jwtRefreshSecret cfg.jwtRefreshExpiresIn now,
           now + sevenDays⟩] } := by
  unfold AuthService.register at h
  split at h
  · exact absurd h (by simp)
  · rename_i hfind
    have h2 : AuthService.generateTokens cfg now (mkUserId db.nextUserId) email
        { db with
          users := db.users ++ [⟨mkUserId db.nextUserId, email, ⟨pw, cfg.bcryptRounds⟩, now, now⟩],
          nextUserId := db.nextUserId + 1,
          log := db.log ++ [.createUser ⟨mkUserId db.nextUserId, email, ⟨pw, cfg.bcryptRounds⟩, now, now⟩] }
        = .ok (tk, db') := h
    obtain ⟨hany, htk, hdb'⟩ := generateTokens_ok h2
    subst hdb'
    subst htk
    simp only at hany
    refine ⟨hfind, hany, rfl, ?_⟩
    simp [List.append_assoc]

/-- Characterization of a successful `login`: a user row matched the
email, the bcrypt comparison passed, and a pair was minted and persisted
from that row. -/
theorem login_ok {cfg : AuthConfig} {now : Nat} {email pw : String} {db : DB}
    {tk : AuthTokens} {db' : DB}
    (h : AuthService.login cfg now email pw db = .ok (tk, db')) :
    ∃ user,
      db.users.find? (fun u => u.email = email) = some user ∧
      bcrypt.compare pw user.password = true ∧
      db.refreshTokens.any
        (fun r => r.token = jwt.sign user.id user.email cfg.jwtRefreshSecret cfg.jwtRefreshExpiresIn now) = false ∧
      tk = ⟨jwt.sign user.id user.email cfg.jwtSecret cfg.jwtExpiresIn now,
            jwt.sign user.id user.email cfg.jwtRefreshSecret cfg.jwtRefreshExpiresIn now⟩ ∧
      db' = { db with
        refreshTokens := db.refreshTokens ++
          [⟨mkRefreshId db.nextRefreshId, user.id,
            jwt.sign user.id user.email cfg.jwtRefreshSecret cfg.jwtRefreshExpiresIn now,
            now + sevenDays⟩],
        nextRefreshId := db.nextRefreshId + 1,
        log := db.log ++
          [.createRefresh ⟨mkRefreshId db.nextRefreshId, user.id,
            jwt.sign user.id user.email cfg.jwtRefreshSecret cfg.jwtRefreshExpiresIn now,
            now + sevenDays⟩] } := by
  unfold AuthService.login at h
  split at h
  · exact absurd h (by simp)
  · rename_i user hfind
    split at h
    · rename_i hcmp
      obtain ⟨hany, htk, hdb'⟩ := generateTokens_ok h
      subst hdb'
      subst htk
      exact ⟨user, hfind, hcmp, hany, rfl, rfl⟩
    · exact absurd h (by simp)

theorem find?_append_of_none {α : Type} {p : α → Bool} {l1 l2 : List α}
    (h : l1.find? p = none) : (l1 ++ l2).find? p = l2.find? p := by
  rw [List.find?_append, h]
  cases l2.find? p <;> rfl

/-- A successful `generateTokens` written as an equation: applies whenever
the fresh refresh signature does not collide with a stored token. -/
theorem generateTokens_eq_ok {cfg : AuthConfig} {now : Nat} {uid em : String} {db : DB}
    (hany : db.refreshTokens.any
      (fun r => r.token = jwt.sign uid em cfg.jwtRefreshSecret cfg.jwtRefreshExpiresIn now) = false) :
    AuthService.generateTokens cfg now uid em db =
      .ok (⟨jwt.sign uid em cfg.jwtSecret cfg.jwtExpiresIn now,
            jwt.sign uid em cfg.jwtRefreshSecret cfg.jwtRefreshExpiresIn now⟩,
        { db with
          refreshTokens := db.refreshTokens ++
            [⟨mkRefreshId db.nextRefreshId, uid,
              jwt.sign uid em cfg.jwtRefreshSecret cfg.jwtRefreshExpiresIn now, now + sevenDays⟩],
          nextRefreshId := db.nextRefreshId + 1,
          log := db.log ++ [.createRefresh ⟨mkRefreshId db.nextRefreshId, uid,
              jwt.sign uid em cfg.jwtRefreshSecret cfg.jwtRefreshExpiresIn now, now + sevenDays⟩] }) := by
  unfold AuthService.generateTokens
  simp [hany]

theorem jwt.verify_some {t : Token} {secret : String} {now : Nat} {p : JWTPayload}
    (h : jwt.verify t secret now = some p) :
    p = t.payload ∧ t.secret = secret ∧ now < t.payload.exp := by
  unfold jwt.verify at h
  split at h
  · rename_i hc
    exact ⟨(Option.some.injEq _ _ ▸ h).symm, hc.1, hc.2⟩
  · exact absurd h (by simp)

/-- Fixture configuration for the concrete witnesses: distinct secrets,
15-minute access ttl, 7-day refresh ttl, 10 rounds. -/
def cfg0 : AuthConfig := ⟨"acc-secret", "ref-secret", 900, 604800, 10⟩

/-- Fixture user row created by registering a@x.com / pw1 at time 0. -/
def user0 : UserRec := ⟨"u0", "a@x.com", ⟨"pw1", 10⟩, 0, 0⟩

/-- Fixture refresh token signed at time 0. -/
def rtok0 : Token := jwt.sign "u0" "a@x.com" "ref-secret" 604800 0

/-- Fixture stored refresh record for `rtok0`. -/
def rrec0 : RefreshTokenRec := ⟨"r0", "u0", rtok0, sevenDays⟩

/-- The store after `register cfg0 0 "a@x.com" "pw1"` on the empty
store. -/
def db0C : DB := ⟨[user0], [rrec0], 1, 1, [.createUser user0, .createRefresh rrec0]⟩

/-- The pair returned by that registration. -/
def pair0 : AuthTokens := ⟨jwt.sign "u0" "a@x.com" "acc-secret" 900 0, rtok0⟩

/-- A store holding `user0` and the live record `rrec0`, with an empty
event log, as the starting point of a rotation trace. -/
def c1db : DB := ⟨[user0], [rrec0], 1, 1, []⟩

/-- Fixture refresh token signed at time 1 (the rotation replacement). -/
def rtok1 : Token := jwt.sign "u0" "a@x.com" "ref-secret" 604800 1

/-- Fixture stored refresh record for `rtok1`. -/
def rrec1 : RefreshTokenRec := ⟨"r1", "u0", rtok1, 1 + sevenDays⟩

/-- The pair returned by refreshing `rtok0` at time 1. -/
def pair1 : AuthTokens := ⟨jwt.sign "u0" "a@x.com" "acc-secret" 900 1, rtok1⟩

/-- The store after refreshing `rtok0` at time 1 from `c1db`. -/
def c1db' : DB := ⟨[user0], [rrec1], 1, 2, [.createRefresh rrec1, .deleteRefreshById "r0"]⟩

/-- C1 counterexample: at a concrete store holding one user and one live
refresh record, `refreshToken` succeeds, and the trace of store
operations of the call is create-new-record THEN delete-old-record; in
that trace no delete of a refresh record precedes the creation of the new
one, refuting the claimed delete-then-create ordering. -/
theorem C1_counterexample_create_precedes_delete :
    (AuthService.refreshToken cfg0 1 rtok0 c1db).isOk = true ∧
    resultLog (AuthService.refreshToken cfg0 1 rtok0 c1db) =
      [.createRefresh rrec1, .deleteRefreshById "r0"] ∧
    ¬ deleteBeforeCreate (resultLog (AuthService.refreshToken cfg0 1 rtok0 c1db)) := by
  have h : AuthService.refreshToken cfg0 1 rtok0 c1db = .ok (pair1, c1db') := by rfl
  rw [h]
  refine ⟨rfl, rfl, ?_⟩
  show ¬ deleteBeforeCreate [.createRefresh rrec1, .deleteRefreshById "r0"]
  decide

/-- C1 (amended): on every refresh call that succeeds (over a store whose
next generated refresh id is fresh), the new pair is minted and its
refresh record persisted FIRST, and the consumed record is deleted
AFTERWARDS — create-then-delete, the reverse of the claimed order; on
success the consumed record is gone from the store and the new record is
present. -/
theorem C1_rotation_create_then_delete
    (cfg : AuthConfig) (now : Nat) (tok : Token) (db : DB) (tk : AuthTokens) (db' : DB)
    (hid : ∀ r ∈ db.refreshTokens, r.id ≠ mkRefreshId db.nextRefreshId)
    (h : AuthService.refreshToken cfg now tok db = .ok (tk, db')) :
    ∃ stored newRec,
      db.refreshTokens.find? (fun r => r.token = tok) = some stored ∧
      newRec.token = tk.refreshToken ∧
      db'.log = db.log ++ [.createRefresh newRec, .deleteRefreshById stored.id] ∧
      newRec ∈ db'.refreshTokens ∧
      (∀ r ∈ db'.refreshTokens, r.id ≠ stored.id) := by
  rw [AuthService.refreshToken, wrapCatch_ok_iff] at h
  obtain ⟨stored, user, hfind, hexp, huser, hany, htk, hdb'⟩ := refreshTokenTry_ok h
  subst hdb'
  subst htk
  have hne : mkRefreshId db.nextRefreshId ≠ stored.id := fun hEq =>
    hid stored (List.mem_of_find?_eq_some hfind) hEq.symm
  refine ⟨stored, ⟨mkRefreshId db.nextRefreshId, user.id,
      jwt.sign user.id user.email cfg.jwtRefreshSecret cfg.jwtRefreshExpiresIn now,
      now + sevenDays⟩, hfind, rfl, rfl, ?_, ?_⟩
  · exact List.mem_filter.mpr ⟨by simp, by simpa using hne⟩
  · intro r hr
    simpa using (List.mem_filter.mp hr).2

/-- Witness for the amended C1 at the concrete rotation fixture. -/
theorem C1_rotation_create_then_delete_witness :
    ∃ stored newRec,
      c1db.refreshTokens.find? (fun r => r.token = rtok0) = some stored ∧
      newRec.token = pair1.refreshToken ∧
      c1db'.log = c1db.log ++ [.createRefresh newRec, .deleteRefreshById stored.id] ∧
      newRec ∈ c1db'.refreshTokens ∧
      (∀ r ∈ c1db'.refreshTokens, r.id ≠ stored.id) :=
  C1_rotation_create_then_delete cfg0 1 rtok0 c1db pair1 c1db' (by decide) (by rfl)

/-- C2: after a refresh call that succeeds by consuming token `tok` (over
a store whose token column is duplicate-free, as the schema's unique
constraint guarantees), a second sequential refresh presenting the same
`tok`, at any time, fails with 401 Unauthenticated
("Invalid refresh token"). -/
theorem C2_refresh_single_use
    (cfg : AuthConfig) (t1 t2 : Nat) (tok : Token) (db : DB) (tk1 : AuthTokens) (db1 : DB)
    (huniq : (db.refreshTokens.map (fun r => r.token)).Nodup)
    (h1 : AuthService.refreshToken cfg t1 tok db = .ok (tk1, db1)) :
    AuthService.refreshToken cfg t2 tok db1 =
      .error (.service ⟨"Invalid refresh token", 401⟩) := by
  rw [AuthService.refreshToken, wrapCatch_ok_iff] at h1
  obtain ⟨stored, user, hfind, hexp, huser, hany, htk, hdb1⟩ := refreshTokenTry_ok h1
  have hstoredmem : stored ∈ db.refreshTokens := List.mem_of_find?_eq_some hfind
  have hstoredtok : stored.token = tok := by simpa using List.find?_some hfind
  have hfresh : jwt.sign user.id user.email cfg.jwtRefreshSecret cfg.jwtRefreshExpiresIn t1 ≠ tok := by
    intro hEq
    have := (List.any_eq_false.mp hany) stored hstoredmem
    simp only [decide_eq_true_eq] at this
    exact this (hstoredtok.trans hEq.symm)
  have hnone : db1.refreshTokens.find? (fun r => r.token = tok) = none := by
    subst hdb1
    rw [List.find?_eq_none]
    intro x hx
    simp only [List.mem_filter, List.mem_append, List.mem_singleton] at hx
    obtain ⟨hx1 | hx2, hxid⟩ := hx
    · simp only [decide_eq_true_eq]
      intro hxtok
      have hxe : x = stored :=
        List.inj_on_of_nodup_map huniq hx1 hstoredmem (hxtok.trans hstoredtok.symm)
      rw [hxe] at hxid
      simp at hxid
    · subst hx2
      simpa using hfresh
  unfold AuthService.refreshToken AuthService.refreshTokenTry
  cases hv : jwt.verify tok cfg.jwtRefreshSecret t2 with
  | none => simp [hv, AuthService.wrapCatch]
  | some p => simp [hv, hnone, AuthService.wrapCatch]

/-- Witness for C2 at the concrete fixture: refreshing `rtok0` a second
time after the successful rotation fails with the 401. -/
theorem C2_refresh_single_use_witness :
    AuthService.refreshToken cfg0 2 rtok0 c1db' =
      .error (.service ⟨"Invalid refresh token", 401⟩) :=
  C2_refresh_single_use cfg0 1 2 rtok0 c1db pair1 c1db' (by decide) (by rfl)

/-- C3: for every successful register, login, or refresh, the refresh
record persisted by the call carries `expiresAt = now + 7 * 24 * 60 * 60`
— a constant 7-day window — whatever the configured refresh signing ttl
`cfg.jwtRefreshExpiresIn` (and hence whatever the token's own signed `exp`
claim) is. -/
theorem C3_persisted_expiry_constant_seven_days (cfg : AuthConfig) (now : Nat) :
    (∀ email pw db tk db', AuthService.register cfg now email pw db = .ok (tk, db') →
      ∃ u r, db'.log = db.log ++ [.createUser u, .createRefresh r] ∧
        r.expiresAt = now + 7 * 24 * 60 * 60 ∧
        r.token.payload.exp = now + cfg.jwtRefreshExpiresIn) ∧
    (∀ email pw db tk db', AuthService.login cfg now email pw db = .ok (tk, db') →
      ∃ r, db'.log = db.log ++ [.createRefresh r] ∧
        r.expiresAt = now + 7 * 24 * 60 * 60 ∧
        r.token.payload.exp = now + cfg.jwtRefreshExpiresIn) ∧
    (∀ tok db tk db', AuthService.refreshToken cfg now tok db = .ok (tk, db') →
      ∃ r rid, db'.log = db.log ++ [.createRefresh r, .deleteRefreshById rid] ∧
        r.expiresAt = now + 7 * 24 * 60 * 60 ∧
        r.token.payload.exp = now + cfg.jwtRefreshExpiresIn) := by
  refine ⟨?_, ?_, ?_⟩
  · intro email pw db tk db' h
    obtain ⟨hfind, hany, htk, hdb'⟩ := register_ok h
    subst hdb'
    exact ⟨⟨mkUserId db.nextUserId, email, ⟨pw, cfg.bcryptRounds⟩, now, now⟩,
      ⟨mkRefreshId db.nextRefreshId, mkUserId db.nextUserId,
        jwt.sign (mkUserId db.nextUserId) email cfg.jwtRefreshSecret cfg.jwtRefreshExpiresIn now,
        now + sevenDays⟩, rfl, rfl, rfl⟩
  · intro email pw db tk db' h
    obtain ⟨user, hfind, hcmp, hany, htk, hdb'⟩ := login_ok h
    subst hdb'
    exact ⟨⟨mkRefreshId db.nextRefreshId, user.id,
      jwt.sign user.id user.email cfg.jwtRefreshSecret cfg.jwtRefreshExpiresIn now,
      now + sevenDays⟩, rfl, rfl, rfl⟩
  · intro tok db tk db' h
    rw [AuthService.refreshToken, wrapCatch_ok_iff] at h
    obtain ⟨stored, user, hfind, hexp, huser, hany, htk, hdb'⟩ := refreshTokenTry_ok h
    subst hdb'
    exact ⟨⟨mkRefreshId db.nextRefreshId, user.id,
      jwt.sign user.id user.email cfg.jwtRefreshSecret cfg.jwtRefreshExpiresIn now,
      now + sevenDays⟩, stored.id, rfl, rfl, rfl⟩

/-- Witness for C3 at the concrete registration fixture. -/
theorem C3_persisted_expiry_witness :
    ∃ u r, db0C.log = DB.empty.log ++ [.createUser u, .createRefresh r] ∧
      r.expiresAt = 0 + 7 * 24 * 60 * 60 ∧
      r.token.payload.exp = 0 + cfg0.jwtRefreshExpiresIn :=
  (C3_persisted_expiry_constant_seven_days cfg0 0).1 "a@x.com" "pw1" DB.empty pair0 db0C (by rfl)

theorem login_eq_generateTokens {cfg : AuthConfig} {now : Nat} {email pw : String}
    {db : DB} {user : UserRec}
    (hfind : db.users.find? (fun u => u.email = email) = some user)
    (hcmp : bcrypt.compare pw user.password = true) :
    AuthService.login cfg now email pw db =
      AuthService.generateTokens cfg now user.id user.email db := by
  unfold AuthService.login
  rw [hfind]
  simp [hcmp]

/-- C4 counterexample: registering a@x.com on the empty store at time 0
succeeds, but a login with the same credentials within the same signing
second does NOT succeed: the login's refresh token string is identical to
the one registration just persisted (same payload, same iat, same exp),
so `prisma.refreshToken.create` violates the unique token column and the
P2002 error propagates out of `login`, which has no catch — refuting the
claim that an immediately following login always succeeds. -/
theorem C4_counterexample_same_second_login_fails :
    AuthService.register cfg0 0 "a@x.com" "pw1" DB.empty = .ok (pair0, db0C) ∧
    AuthService.login cfg0 0 "a@x.com" "pw1" db0C =
      .error (.internal "P2002 unique constraint failed on RefreshToken.token") := by
  exact ⟨rfl, rfl⟩

/-- C4 (amended): when `register` succeeds at time t0 (over a store whose
live refresh tokens were all minted no later than t0), a login with the
same email and password at any STRICTLY LATER time t1 succeeds, and both
the pair returned by register and the pair returned by login decode to
the id of the user row that register created; a login within the same
signing second instead fails on the store's unique token column, because
second-granularity signing reproduces the identical refresh token
string. -/
theorem C4_register_then_login
    (cfg : AuthConfig) (t0 t1 : Nat) (email pw : String) (db : DB)
    (tk0 : AuthTokens) (db0 : DB)
    (hmint : ∀ r ∈ db.refreshTokens, r.token.payload.iat ≤ t0)
    (ht : t0 < t1)
    (h0 : AuthService.register cfg t0 email pw db = .ok (tk0, db0)) :
    ∃ user tk1 db1,
      db0.users = db.users ++ [user] ∧
      user.email = email ∧
      tk0.accessToken.payload.userId = user.id ∧
      AuthService.login cfg t1 email pw db0 = .ok (tk1, db1) ∧
      tk1.accessToken.payload.userId = user.id ∧
      tk1.refreshToken.payload.userId = user.id := by
  obtain ⟨hfind, hany, htk, hdb0⟩ := register_ok h0
  subst hdb0
  subst htk
  have hfind1 : (db.users ++
      [(⟨mkUserId db.nextUserId, email, ⟨pw, cfg.bcryptRounds⟩, t0, t0⟩ : UserRec)]).find?
        (fun u => u.email = email) =
      some ⟨mkUserId db.nextUserId, email, ⟨pw, cfg.bcryptRounds⟩, t0, t0⟩ := by
    rw [find?_append_of_none hfind]
    exact List.find?_cons_of_pos _ (by simp)
  have hany1 : ((db.refreshTokens ++
      [(⟨mkRefreshId db.nextRefreshId, mkUserId db.nextUserId,
        jwt.sign (mkUserId db.nextUserId) email cfg.jwtRefreshSecret cfg.jwtRefreshExpiresIn t0,
        t0 + sevenDays⟩ : RefreshTokenRec)]).any
      (fun r => r.token =
        jwt.sign (mkUserId db.nextUserId) email cfg.jwtRefreshSecret cfg.jwtRefreshExpiresIn t1)) = false := by
    rw [List.any_eq_false]
    intro x hx
    simp only [List.mem_append, List.mem_singleton] at hx
    simp only [decide_eq_true_eq]
    rcases hx with hx | rfl
    · intro hEq
      have hle := hmint x hx
      rw [hEq] at hle
      simp only [jwt.sign] at hle
      omega
    · intro hEq
      have hiat := congrArg (fun t => t.payload.iat) hEq
      simp only [jwt.sign] at hiat
      omega
  have hlogin :=
    (@login_eq_generateTokens cfg t1 email pw
      { db with
        users := db.users ++ [⟨mkUserId db.nextUserId, email, ⟨pw, cfg.bcryptRounds⟩, t0, t0⟩],
        refreshTokens := db.refreshTokens ++
          [⟨mkRefreshId db.nextRefreshId, mkUserId db.nextUserId,
            jwt.sign (mkUserId db.nextUserId) email cfg.jwtRefreshSecret cfg.jwtRefreshExpiresIn t0,
            t0 + sevenDays⟩],
        nextUserId := db.nextUserId + 1,
        nextRefreshId := db.nextRefreshId + 1,
        log := db.log ++
          [.createUser ⟨mkUserId db.nextUserId, email, ⟨pw, cfg.bcryptRounds⟩, t0, t0⟩,
           .createRefresh ⟨mkRefreshId db.nextRefreshId, mkUserId db.nextUserId,
             jwt.sign (mkUserId db.nextUserId) email cfg.jwtRefreshSecret cfg.jwtRefreshExpiresIn t0,
             t0 + sevenDays⟩] }
      ⟨mkUserId db.nextUserId, email, ⟨pw, cfg.bcryptRounds⟩, t0, t0⟩
      hfind1 (by simp [bcrypt.compare])).trans
    (@generateTokens_eq_ok cfg t1 (mkUserId db.nextUserId) email
      { db with
        users := db.users ++ [⟨mkUserId db.nextUserId, email, ⟨pw, cfg.bcryptRounds⟩, t0, t0⟩],
        refreshTokens := db.refreshTokens ++
          [⟨mkRefreshId db.nextRefreshId, mkUserId db.nextUserId,
            jwt.sign (mkUserId db.nextUserId) email cfg.jwtRefreshSecret cfg.jwtRefreshExpiresIn t0,
            t0 + sevenDays⟩],
        nextUserId := db.nextUserId + 1,
        nextRefreshId := db.nextRefreshId + 1,
        log := db.log ++
          [.createUser ⟨mkUserId db.nextUserId, email, ⟨pw, cfg.bcryptRounds⟩, t0, t0⟩,
           .createRefresh ⟨mkRefreshId db.nextRefreshId, mkUserId db.nextUserId,
             jwt.sign (mkUserId db.nextUserId) email cfg.jwtRefreshSecret cfg.jwtRefreshExpiresIn t0,
             t0 + sevenDays⟩] }
      hany1)
  exact ⟨⟨mkUserId db.nextUserId, email, ⟨pw, cfg.bcryptRounds⟩, t0, t0⟩, _, _,
    rfl, rfl, rfl, hlogin, rfl, rfl⟩

/-- Witness for C4: registering a@x.com on the empty store at time 0 and
logging in at time 1. -/
theorem C4_register_then_login_witness :
    ∃ user tk1 db1,
      db0C.users = DB.empty.users ++ [user] ∧
      user.email = "a@x.com" ∧
      pair0.accessToken.payload.userId = user.id ∧
      AuthService.login cfg0 1 "a@x.com" "pw1" db0C = .ok (tk1, db1) ∧
      tk1.accessToken.payload.userId = user.id ∧
      tk1.refreshToken.payload.userId = user.id :=
  C4_register_then_login cfg0 0 1 "a@x.com" "pw1" DB.empty pair0 db0C
    (by simp [DB.empty]) (by decide) (by rfl)

/-- C5 counterexample: with ttl = 0 the round trip fails — a token signed
with ttl 0 and verified immediately (same secret, same instant) is
rejected as expired rather than decoding to its payload, so the claim's
quantification over every ttl is false. -/
theorem C5_counterexample_ttl_zero :
    jwt.verify (jwt.sign "u0" "a@x.com" "secret-a" 0 100) "secret-a" 100 = none ∧
    jwt.verify (jwt.sign "u0" "a@x.com" "secret-a" 0 100) "secret-a" 100 ≠
      some ⟨"u0", "a@x.com", 100, 100⟩ := by
  decide

/-- C5 (amended): for every payload, secret, and POSITIVE ttl, a token
signed with that secret and ttl and verified immediately with the same
secret decodes to the original payload (userId, email, with iat = now and
exp = now + ttl); verification with a different secret fails at every
time. -/
theorem C5_sign_verify_roundtrip (userId email s1 s2 : String) (ttl now now2 : Nat)
    (httl : 0 < ttl) (hs : s2 ≠ s1) :
    jwt.verify (jwt.sign userId email s1 ttl now) s1 now =
      some ⟨userId, email, now, now + ttl⟩ ∧
    jwt.verify (jwt.sign userId email s1 ttl now) s2 now2 = none := by
  have hlt : now < now + ttl := by omega
  constructor
  · simp [jwt.verify, jwt.sign, hlt]
  · unfold jwt.verify jwt.sign
    rw [if_neg]
    intro hc
    exact hs hc.1.symm

/-- Witness for the amended C5 at concrete inputs. -/
theorem C5_sign_verify_roundtrip_witness :
    0 < 900 ∧ ("other" : String) ≠ "secret-a" ∧
    (jwt.verify (jwt.sign "u0" "a@x.com" "secret-a" 900 100) "secret-a" 100 =
       some ⟨"u0", "a@x.com", 100, 1000⟩ ∧
     jwt.verify (jwt.sign "u0" "a@x.com" "secret-a" 900 100) "other" 100 = none) :=
  ⟨by decide, by decide,
   C5_sign_verify_roundtrip "u0" "a@x.com" "secret-a" "other" 900 100 100
     (by decide) (by decide)⟩

/-- C6: a login with an email matching no stored user and a login with a
matching email but failing password comparison both fail with the same
error value — 401 Unauthenticated, message "Invalid email or password" —
so the two failures are indistinguishable to the caller. -/
theorem C6_login_failures_indistinguishable
    (cfg : AuthConfig) (now : Nat) (email pw : String) (db : DB) :
    (db.users.find? (fun u => u.email = email) = none →
      AuthService.login cfg now email pw db =
        .error (.service ⟨"Invalid email or password", 401⟩)) ∧
    (∀ user, db.users.find? (fun u => u.email = email) = some user →
      bcrypt.compare pw user.password = false →
      AuthService.login cfg now email pw db =
        .error (.service ⟨"Invalid email or password", 401⟩)) := by
  constructor
  · intro hnone
    unfold AuthService.login
    rw [hnone]
  · intro user hsome hcmp
    unfold AuthService.login
    rw [hsome]
    simp [hcmp]

/-- Witness for C6: wrong password and unknown email on the registration
fixture produce the identical 401. -/
theorem C6_login_failures_witness :
    AuthService.login cfg0 1 "a@x.com" "wrong" db0C =
      .error (.service ⟨"Invalid email or password", 401⟩) ∧
    AuthService.login cfg0 1 "b@x.com" "pw1" db0C =
      .error (.service ⟨"Invalid email or password", 401⟩) :=
  ⟨(C6_login_failures_indistinguishable cfg0 1 "a@x.com" "wrong" db0C).2 user0
     (by rfl) (by decide),
   (C6_login_failures_indistinguishable cfg0 1 "b@x.com" "pw1" db0C).1 (by rfl)⟩

/-- C7: `validateToken` fails 401 ("Invalid token") when signature or
expiry verification against the access secret fails, fails 404
("User not found") when the verified token's embedded user id resolves to
no stored user, and otherwise returns the decoded payload, which carries
the token's user id and email. -/
theorem C7_validateToken_cases (cfg : AuthConfig) (now : Nat) (tok : Token) (db : DB) :
    (jwt.verify tok cfg.jwtSecret now = none →
      AuthService.validateToken cfg now tok db =
        .error (.service ⟨"Invalid token", 401⟩)) ∧
    (∀ p, jwt.verify tok cfg.jwtSecret now = some p →
      db.users.find? (fun u => u.id = p.userId) = none →
      AuthService.validateToken cfg now tok db =
        .error (.service ⟨"User not found", 404⟩)) ∧
    (∀ p user, jwt.verify tok cfg.jwtSecret now = some p →
      db.users.find? (fun u => u.id = p.userId) = some user →
      AuthService.validateToken cfg now tok db = .ok p ∧
      p.userId = tok.payload.userId ∧ p.email = tok.payload.email) := by
  refine ⟨?_, ?_, ?_⟩
  · intro hv
    unfold AuthService.validateToken AuthService.validateTokenTry
    rw [hv]
    rfl
  · intro p hv hnone
    unfold AuthService.validateToken AuthService.validateTokenTry
    rw [hv]
    simp only [hnone]
    rfl
  · intro p user hv hsome
    obtain ⟨hp, _, _⟩ := jwt.verify_some hv
    subst hp
    refine ⟨?_, rfl, rfl⟩
    unfold AuthService.validateToken AuthService.validateTokenTry
    rw [hv]
    simp only [hsome]
    rfl

/-- Witness for C7: on the registration fixture, a garbage token gets
401, a validly signed token of a deleted user gets 404, and the issued
access token validates to its payload. -/
theorem C7_validateToken_witness :
    (AuthService.validateToken cfg0 1 (jwt.sign "u0" "a@x.com" "bad-secret" 900 0) db0C =
      .error (.service ⟨"Invalid token", 401⟩)) ∧
    (AuthService.validateToken cfg0 1 (jwt.sign "ghost" "g@x.com" "acc-secret" 900 0) db0C =
      .error (.service ⟨"User not found", 404⟩)) ∧
    (AuthService.validateToken cfg0 1 pair0.accessToken db0C =
      .ok ⟨"u0", "a@x.com", 0, 900⟩) :=
  ⟨(C7_validateToken_cases cfg0 1 (jwt.sign "u0" "a@x.com" "bad-secret" 900 0) db0C).1
     (by decide),
   (C7_validateToken_cases cfg0 1 (jwt.sign "ghost" "g@x.com" "acc-secret" 900 0) db0C).2.1
     ⟨"ghost", "g@x.com", 0, 900⟩ (by decide) (by decide),
   ((C7_validateToken_cases cfg0 1 pair0.accessToken db0C).2.2
     ⟨"u0", "a@x.com", 0, 900⟩ user0 (by decide) (by decide)).1⟩

/-- C8 counterexample: on the empty store, `getUserById` does not return
an absent result for an unknown id — it throws a 404 ServiceError, so the
"absent result, not an error" half of the claim is false on the code. -/
theorem C8_counterexample_absent_user_is_error :
    AuthService.getUserById "u0" DB.empty =
      .error (.service ⟨"User not found", 404⟩) := by
  rfl

/-- C8 (amended): `getUserById` returns the stored user projected without
the password hash when a row with the id exists, and fails with 404
NotFound ("User not found") — rather than returning an absent value —
when none exists. -/
theorem C8_getUserById_found_or_404 (userId : String) (db : DB) :
    (∀ u, db.users.find? (fun x => x.id = userId) = some u →
      AuthService.getUserById userId db = .ok ⟨u.id, u.email, u.createdAt, u.updatedAt⟩) ∧
    (db.users.find? (fun x => x.id = userId) = none →
      AuthService.getUserById userId db = .error (.service ⟨"User not found", 404⟩)) := by
  constructor
  · intro u hsome
    unfold AuthService.getUserById
    rw [hsome]
  · intro hnone
    unfold AuthService.getUserById
    rw [hnone]

/-- Witness for the amended C8 on the registration fixture. -/
theorem C8_getUserById_witness :
    AuthService.getUserById "u0" db0C =
      .ok ⟨"u0", "a@x.com", 0, 0⟩ ∧
    AuthService.getUserById "zz" db0C =
      .error (.service ⟨"User not found", 404⟩) :=
  ⟨(C8_getUserById_found_or_404 "u0" db0C).1 user0 (by rfl),
   (C8_getUserById_found_or_404 "zz" db0C).2 (by rfl)⟩

/-- C9: `logout` always succeeds; it removes exactly the stored records
whose token equals the presented string (leaving users and all other
refresh records untouched), and when no record matches it is a no-op on
the store — so logout is idempotent and never errors. -/
theorem C9_logout_idempotent_never_errors (tok : Token) (db : DB) :
    ∃ db2,
      AuthService.logout tok db = .ok ((), db2) ∧
      (∀ r ∈ db2.refreshTokens, r.token ≠ tok) ∧
      (∀ r ∈ db.refreshTokens, r.token ≠ tok → r ∈ db2.refreshTokens) ∧
      db2.users = db.users ∧
      ((∀ r ∈ db.refreshTokens, r.token ≠ tok) →
        db2.refreshTokens = db.refreshTokens) := by
  refine ⟨_, rfl, ?_, ?_, rfl, ?_⟩
  · intro r hr
    simpa using (List.mem_filter.mp hr).2
  · intro r hr hne
    exact List.mem_filter.mpr ⟨hr, by simpa⟩
  · intro hall
    rw [List.filter_eq_self]
    intro a ha
    simpa using hall a ha

/-- Witness for C9: logging out `rtok1` on the rotated fixture. -/
theorem C9_logout_witness :
    ∃ db2,
      AuthService.logout rtok1 c1db' = .ok ((), db2) ∧
      (∀ r ∈ db2.refreshTokens, r.token ≠ rtok1) ∧
      (∀ r ∈ c1db'.refreshTokens, r.token ≠ rtok1 → r ∈ db2.refreshTokens) ∧
      db2.users = c1db'.users ∧
      ((∀ r ∈ c1db'.refreshTokens, r.token ≠ rtok1) →
        db2.refreshTokens = c1db'.refreshTokens) :=
  C9_logout_idempotent_never_errors rtok1 c1db'

/-- C10: on every successful refresh, both new tokens are minted from the
user row referenced by the stored refresh record — its current id and
email as read from the store — regardless of the email claim embedded in
the presented token. -/
theorem C10_refresh_mints_from_store_row
    (cfg : AuthConfig) (now : Nat) (tok : Token) (db : DB)
    (stored : RefreshTokenRec) (user : UserRec) (tk : AuthTokens) (db' : DB)
    (hfind : db.refreshTokens.find? (fun r => r.token = tok) = some stored)
    (huser : db.users.find? (fun u => u.id = stored.userId) = some user)
    (h : AuthService.refreshToken cfg now tok db = .ok (tk, db')) :
    tk.accessToken.payload.userId = user.id ∧
    tk.accessToken.payload.email = user.email ∧
    tk.refreshToken.payload.userId = user.id ∧
    tk.refreshToken.payload.email = user.email := by
  rw [AuthService.refreshToken, wrapCatch_ok_iff] at h
  obtain ⟨stored2, user2, hfind2, hexp2, huser2, hany2, htk, hdb'⟩ := refreshTokenTry_ok h
  rw [hfind] at hfind2
  injection hfind2 with hst
  subst hst
  rw [huser] at huser2
  injection huser2 with hus
  subst hus
  subst htk
  exact ⟨rfl, rfl, rfl, rfl⟩

/-- Witness for C10 at a store whose user row carries a different (newer)
email than the claim embedded in the stored refresh token: the minted
pair carries the store's email. -/
theorem C10_refresh_mints_from_store_row_witness :
    (⟨jwt.sign "u0" "new@x.com" "acc-secret" 900 1,
      jwt.sign "u0" "new@x.com" "ref-secret" 604800 1⟩ : AuthTokens).accessToken.payload.userId = "u0" ∧
    (⟨jwt.sign "u0" "new@x.com" "acc-secret" 900 1,
      jwt.sign "u0" "new@x.com" "ref-secret" 604800 1⟩ : AuthTokens).accessToken.payload.email = "new@x.com" ∧
    (⟨jwt.sign "u0" "new@x.com" "acc-secret" 900 1,
      jwt.sign "u0" "new@x.com" "ref-secret" 604800 1⟩ : AuthTokens).refreshToken.payload.userId = "u0" ∧
    (⟨jwt.sign "u0" "new@x.com" "acc-secret" 900 1,
      jwt.sign "u0" "new@x.com" "ref-secret" 604800 1⟩ : AuthTokens).refreshToken.payload.email = "new@x.com" :=
  C10_refresh_mints_from_store_row cfg0 1
    (⟨⟨"u0", "old@x.com", 0, 604800⟩, "ref-secret"⟩ : Token)
    (⟨[⟨"u0", "new@x.com", ⟨"pw1", 10⟩, 0, 0⟩],
      [⟨"r0", "u0", ⟨⟨"u0", "old@x.com", 0, 604800⟩, "ref-secret"⟩, 604800⟩], 1, 1, []⟩ : DB)
    (⟨"r0", "u0", ⟨⟨"u0", "old@x.com", 0, 604800⟩, "ref-secret"⟩, 604800⟩ : RefreshTokenRec)
    (⟨"u0", "new@x.com", ⟨"pw1", 10⟩, 0, 0⟩ : UserRec)
    (⟨jwt.sign "u0" "new@x.com" "acc-secret" 900 1,
      jwt.sign "u0" "new@x.com" "ref-secret" 604800 1⟩ : AuthTokens)
    (⟨[⟨"u0", "new@x.com", ⟨"pw1", 10⟩, 0, 0⟩],
      [⟨"r1", "u0", jwt.sign "u0" "new@x.com" "ref-secret" 604800 1, 1 + sevenDays⟩], 1, 2,
      [.createRefresh ⟨"r1", "u0", jwt.sign "u0" "new@x.com" "ref-secret" 604800 1, 1 + sevenDays⟩,
       .deleteRefreshById "r0"]⟩ : DB)
    (by rfl) (by rfl) (by rfl)
